import Mathlib

/-!
Shallow embedding of the process/thread core of `src/proc.c` (an xv6
derivative): the process table, `wait`'s reap path, `wakeup1`, `kill`,
`cowfork`'s lock discipline, `cow_on`, `signal_deliver`, `thread_init` /
`clone`, and `mprotect`.  Machine words are modelled as `Nat` (with explicit
`% 2^32` where the C code relies on unsigned wraparound), C pointers as `Nat`
values with `0` for the null pointer, and the fixed `NPROC` array as a list of
slots.  External collaborators (kalloc, the VM layer, the filesystem) are
modelled as oracles passed in as arguments; calls into them are recorded in
the result so that theorems can talk about which resources were freed or
copied.
-/

/-- The six scheduling states of a slot (enum procstate, proc.h / spec §3). -/
inductive ProcState where
  | UNUSED
  | EMBRYO
  | SLEEPING
  | RUNNABLE
  | RUNNING
  | ZOMBIE
deriving DecidableEq, Repr, Inhabited

/-- The saved user-mode registers that `signal_deliver` and `clone` touch
(struct trapframe; only the fields proc.c reads or writes are modelled). -/
structure Trapframe where
  eip : Nat
  esp : Nat
  eax : Nat
  ecx : Nat
  edx : Nat
deriving DecidableEq, Repr, Inhabited

/-- One slot of the process table (struct proc).  `parent` is an index into
the table (`none` for the C null pointer); `pgdir`, `kstack`, `chan`,
`tstack` and `tretval` are pointer values with `0` as null.  The `handlers`
array, `restorer_addr`, `context` and the file/cwd handles are not scheduling
state and are modelled separately where a claim needs them. -/
structure Proc where
  state : ProcState
  pid : Nat
  parent : Option Nat
  pgdir : Nat
  sz : Nat
  kstack : Nat
  chan : Nat
  killed : Bool
  name : String
  athread : Bool
  tstack : Nat
  tretval : Nat
  cow : Bool
  tf : Trapframe
deriving DecidableEq, Repr, Inhabited

/-- PGSIZE from mmu.h (one page, 4096 bytes). -/
def PGSIZE : Nat := 4096

/-! ## cow_on (proc.c lines 534-543) and its kernel-base check -/

/-- Modelled from the spec: `memlayout.h` is not under `src/`; `KERNBASE` is
the kernel base, the first kernel virtual address (0x80000000 on x86 xv6). -/
def KERNBASE : Nat := 0x80000000

/-- `cow_on` (proc.c 534-543).  `rcr2v` is the value read from the hardware
fault-address register; `cow_copyfreepg` is the VM-layer oracle (returns 0 on
success).  The second component records the addresses actually handed to the
VM copy routine, so theorems can state whether the copy was invoked.
Faithful to the source, the guard is `addr > KERNBASE` (strict). -/
def cow_on (rcr2v : Nat) (cow_copyfreepg : Nat → Int) : Int × List Nat :=
  let addr := rcr2v
  if addr > KERNBASE then
    (-1, [])
  else
    (cow_copyfreepg addr, [addr])

/-! ## Lock discipline of allocproc/cowfork (proc.c 36-78, 546-588)

The transitions a call performs are recorded as a trace of
(source state, destination state, was ptable.lock held) triples. -/

/-- A state transition of a slot together with whether ptable.lock was held
when it was performed. -/
structure Transition where
  src : ProcState
  dst : ProcState
  locked : Bool
deriving DecidableEq, Repr

/-- Transitions performed by `allocproc` (proc.c 36-78): UNUSED→EMBRYO on
finding a free slot, and the EMBRYO→UNUSED rollback when `kalloc` fails.
`locked` is whatever lock state the caller entered with — allocproc itself
never touches the lock (its header comment says "Must hold ptable.lock"). -/
def allocproc_transitions (locked slotFound kallocOk : Bool) : List Transition :=
  if slotFound then
    if kallocOk then
      [⟨ProcState.UNUSED, ProcState.EMBRYO, locked⟩]
    else
      [⟨ProcState.UNUSED, ProcState.EMBRYO, locked⟩,
       ⟨ProcState.EMBRYO, ProcState.UNUSED, locked⟩]
  else []

/-- Transitions performed by `cowfork` (proc.c 546-588).  The source calls
`allocproc()` with no `acquire(&ptable.lock)` before it (line 552); on
`cow_copyuvm` failure it rolls the child back EMBRYO→UNUSED, still without
the lock (line 559); only the final `np->state = RUNNABLE` is wrapped in
acquire/release (lines 583-585). -/
def cowfork_transitions (slotFound kallocOk copyOk : Bool) : List Transition :=
  allocproc_transitions false slotFound kallocOk ++
  (if slotFound && kallocOk then
    (if copyOk then
      [⟨ProcState.EMBRYO, ProcState.RUNNABLE, true⟩]
    else
      [⟨ProcState.EMBRYO, ProcState.UNUSED, false⟩])
  else [])

/-! ## wakeup1, kill, and wait's reap path (proc.c 406-414, 428-446, 229-267) -/

/-- `wakeup1` (proc.c 406-414): every SLEEPING slot whose `chan` matches is
made RUNNABLE.  Faithful to the source, its `chan` field is NOT cleared (the
sleeper clears its own `chan` in `sleep`, line 394, only after it is
rescheduled). -/
def wakeup1 (chan : Nat) (t : List Proc) : List Proc :=
  t.map (fun p =>
    if p.state = ProcState.SLEEPING ∧ p.chan = chan then
      { p with state := ProcState.RUNNABLE }
    else p)

/-- The scan of `kill` (proc.c 428-446): the first slot whose `pid` field
matches — with no check that the slot is occupied — gets `killed = 1` and, if
SLEEPING, is promoted to RUNNABLE (again without clearing `chan`).  Returns 0
on a match and −1 if no slot matches. -/
def killGo (pid : Nat) : List Proc → Int × List Proc
  | [] => (-1, [])
  | p :: rest =>
    if p.pid = pid then
      (0, { p with
              killed := true,
              state := if p.state = ProcState.SLEEPING then ProcState.RUNNABLE
                       else p.state } :: rest)
    else
      ((killGo pid rest).1, p :: (killGo pid rest).2)

/-- `kill` (proc.c 428-446); the acquire/release bracket the whole scan. -/
def kill (pid : Nat) (t : List Proc) : Int × List Proc := killGo pid t

/-- The field clearing `wait` performs on a reaped ZOMBIE child
(proc.c 245-252): `kstack = 0`, `pid = 0`, `parent = 0`, `name[0] = 0`,
`killed = 0`, `state = UNUSED`.  Faithful to the source, the `pgdir` field is
NOT cleared (line 247 passes it to `freevm` but never assigns it). -/
def reapProc (p : Proc) : Proc :=
  { p with
      kstack := 0,
      pid := 0,
      parent := none,
      name := "",
      killed := false,
      state := ProcState.UNUSED }

/-- The reap path of `wait` (proc.c 238-255): scan for the first slot that is
a ZOMBIE child of `curIdx`; on success return its pid, the table with that
slot cleared by `reapProc`, and the list of page directories passed to
`freevm`.  Faithful to the source, `freevm(p->pgdir)` is called
unconditionally — there is no `athread` check.  (`wait`'s surrounding retry
loop only decides between returning −1 and sleeping when this scan finds
nothing; it does not modify any slot.) -/
def waitReap (curIdx : Nat) : List Proc → Option (Nat × List Proc × List Nat)
  | [] => none
  | p :: rest =>
    if p.parent = some curIdx ∧ p.state = ProcState.ZOMBIE then
      some (p.pid, reapProc p :: rest, [p.pgdir])
    else
      (waitReap curIdx rest).map (fun r => (r.1, p :: r.2.1, r.2.2))

/-- The state/channel consistency predicate of the C3 claim: a slot is
SLEEPING iff its wait channel is non-null. -/
def chanIff (t : List Proc) : Bool :=
  t.all (fun p => (p.state == ProcState.SLEEPING) == (p.chan != 0))

/-- The (weaker) invariant that does hold: every SLEEPING slot has a non-null
wait channel. -/
def chanInv (t : List Proc) : Bool :=
  t.all (fun p => (p.state != ProcState.SLEEPING) || (p.chan != 0))

/-! ## thread_init and clone (proc.c 591-601, 605-636) -/

/-- sizeof(struct proc.name) = 16 (proc.h: `char name[16]`). -/
def NAMESIZE : Nat := 16

/-- The value `safestrcpy(dst, src, n)` leaves in `dst` (string.c, external):
`src` truncated to `n - 1` characters plus the NUL terminator. -/
def safestrcpy (src : String) (n : Nat) : String :=
  ⟨src.data.take (n - 1)⟩

/-- `thread_init` (proc.c 591-601), as an operation on the table: slot
`npIdx` is the fresh child, slot `curIdx` is the calling process.  It marks
the child a thread, records its user stack, shares the caller's page
directory and size, sets parent and clears killed.  Faithful to the source,
the final name copy is `safestrcpy(proc->name, np->name, sizeof(np->name))`:
the CALLER's name field is the destination and the child slot's (stale) name
is the source. -/
def thread_init (curIdx npIdx : Nat) (stack : Nat) (t : List Proc) : List Proc :=
  let cur := t.getD curIdx default
  let np := t.getD npIdx default
  let np2 := { np with
                 athread := true,
                 tstack := stack,
                 pgdir := cur.pgdir,
                 sz := cur.sz,
                 parent := some curIdx,
                 killed := false }
  let cur2 := { cur with name := safestrcpy np.name NAMESIZE }
  (t.set npIdx np2).set curIdx cur2

/-- `allocproc` (proc.c 36-78) as a table operation.  Scans for the first
UNUSED slot; makes it EMBRYO with the next pid; `kalloc` is an oracle giving
the fresh kernel-stack page (`none` = out of memory, in which case the slot
is rolled back to UNUSED and the scan's result is `none` — note the consumed
pid and the slot's pid field are NOT rolled back, as in the source).  Also
clears `cow` and `athread` as the source does; the trapframe/context carving
and the signal-handler sentinels live outside the modelled fields. -/
def allocproc (kalloc : Option Nat) (nextpid : Nat) (t : List Proc) :
    Option Nat × Nat × List Proc :=
  match t.findIdx? (fun p => p.state == ProcState.UNUSED) with
  | none => (none, nextpid, t)
  | some i =>
    let p := t.getD i default
    let p1 := { p with state := ProcState.EMBRYO, pid := nextpid }
    match kalloc with
    | none => (none, nextpid + 1, t.set i { p1 with state := ProcState.UNUSED })
    | some ks =>
      (some i, nextpid + 1,
       t.set i { p1 with kstack := ks, cow := false, athread := false })

/-- The observable outcome of a `clone` call: the syscall return value,
whether ptable.lock is still held when `clone` returns, the successor pid
counter, the resulting table, and the words written to the new thread's user
stack. -/
structure CloneOut where
  ret : Int
  lockHeld : Bool
  nextpid : Nat
  table : List Proc
  uwrites : List (Nat × Nat)
deriving DecidableEq, Repr

/-- `clone` (proc.c 605-636).  It acquires ptable.lock, calls `allocproc`,
and — faithful to the source — on allocation failure returns −1 WITHOUT
releasing the lock (line 611 has no `release`).  On success it runs
`thread_init`, copies the caller's trap frame, points `esp` at the top of
the supplied stack page minus 8, writes a fake return address 0 and `arg`
onto that stack, sets `eip` to the entry function, marks the child RUNNABLE
and releases the lock before returning the child's pid.  (The file/cwd
duplication acts on handles outside the modelled fields.) -/
def clone (func arg stack : Nat) (curIdx : Nat) (kalloc : Option Nat)
    (nextpid : Nat) (t : List Proc) : CloneOut :=
  match allocproc kalloc nextpid t with
  | (none, npid, t1) =>
    { ret := -1, lockHeld := true, nextpid := npid, table := t1, uwrites := [] }
  | (some i, npid, t1) =>
    let t2 := thread_init curIdx i stack t1
    let cur := t2.getD curIdx default
    let np := t2.getD i default
    let esp := stack + PGSIZE - 8
    let np2 := { np with
                   tf := { cur.tf with esp := esp, eip := func },
                   state := ProcState.RUNNABLE }
    { ret := (np.pid : Int), lockHeld := false, nextpid := npid,
      table := t2.set i np2, uwrites := [(esp, 0), (esp + 4, arg)] }

/-! ## signal_deliver (proc.c 485-504) -/

/-- 32-bit unsigned subtraction, as the C expression `esp - k` computes on a
`uint` before the result is used as a store address or written back. -/
def usub (a b : Nat) : Nat := (a + (4294967296 - b)) % 4294967296

/-- User memory, word-addressed by byte address. -/
abbrev Mem : Type := Nat → Nat

/-- A 4-byte store at address `a`. -/
def writeWord (m : Mem) (a v : Nat) : Mem :=
  fun x => if x = a then v else m x

/-- The 8-byte signal-info record (siginfo_t): faulting address and its
protection type. -/
structure Siginfo where
  addr : Nat
  type : Nat
deriving DecidableEq, Repr, Inhabited

/-- Modelled from the spec: the signal numbering (proc.h) is not under
`src/`; the value is the conventional SIGSEGV number and no theorem depends
on it. -/
def SIGSEGV : Nat := 11

/-- `signal_deliver` (proc.c 485-504).  `info0` is the (uninitialised) local
`siginfo_t` before the switch; for SIGSEGV the switch fills it from the fault
address register (`rcr2v`) and the VM layer's `getprot` result (`protv`).
The eight stores build the handler frame below the saved user `esp`
(descending: eip, eax, ecx, edx, the two-word siginfo at −24/−20, signum,
restorer), then `esp` drops by 32 and `eip` is redirected to
`handlers[signum]`. -/
def signal_deliver (signum : Nat) (info0 : Siginfo) (rcr2v protv : Nat)
    (handlers : Nat → Nat) (restorer : Nat) (tf : Trapframe) (m : Mem) :
    Trapframe × Mem :=
  let info : Siginfo :=
    if signum = SIGSEGV then { addr := rcr2v, type := protv } else info0
  let old_eip := tf.eip
  let m1 := writeWord m (usub tf.esp 4) old_eip
  let m2 := writeWord m1 (usub tf.esp 8) tf.eax
  let m3 := writeWord m2 (usub tf.esp 12) tf.ecx
  let m4 := writeWord m3 (usub tf.esp 16) tf.edx
  let m5 := writeWord m4 (usub tf.esp 24) info.addr
  let m6 := writeWord m5 (usub tf.esp 20) info.type
  let m7 := writeWord m6 (usub tf.esp 28) signum
  let m8 := writeWord m7 (usub tf.esp 32) restorer
  ({ tf with esp := usub tf.esp 32, eip := handlers signum }, m8)

/-! ## mprotect (proc.c 516-529) -/

/-- The page loop of `mprotect`: `i` steps by PGSIZE (4096) while
`i < stop`; each visited page is handed to the VM oracle `ap`
(`applyprot`); a non-zero result aborts with −1.  The second component
records the pages actually passed to `applyprot`. -/
def mprotectLoop (ap : Int → Int) (i stop : Int) : Int × List Int :=
  if h : i < stop then
    if ap i ≠ 0 then (-1, [i])
    else
      ((mprotectLoop ap (i + 4096) stop).1, i :: (mprotectLoop ap (i + 4096) stop).2)
  else (0, [])
termination_by (stop - i).toNat
decreasing_by all_goals simp_wf; omega

/-- `mprotect` (proc.c 516-529): reject a non-page-aligned address with −1,
otherwise walk the pages of `[addr, addr + len)`. -/
def mprotect (addr len : Int) (ap : Int → Int) : Int × List Int :=
  if addr % 4096 ≠ 0 then (-1, [])
  else mprotectLoop ap addr (addr + len)

/-! ## Concrete tables used by counterexamples and witnesses -/

def tf0 : Trapframe := ⟨0, 0, 0, 0, 0⟩

/-- A parent process at index 0. -/
def pPar : Proc :=
  { state := ProcState.RUNNING, pid := 1, parent := none, pgdir := 100,
    sz := 4096, kstack := 11, chan := 0, killed := false, name := "init",
    athread := false, tstack := 0, tretval := 0, cow := false, tf := tf0 }

/-- A ZOMBIE non-thread child of slot 0 (its pgdir 555 is exclusively owned). -/
def pChild : Proc :=
  { state := ProcState.ZOMBIE, pid := 7, parent := some 0, pgdir := 555,
    sz := 4096, kstack := 42, chan := 0, killed := false, name := "kid",
    athread := false, tstack := 0, tretval := 0, cow := false, tf := tf0 }

/-- A ZOMBIE thread child of slot 0: `athread` is set and pgdir 777 is the
address space it shares with its parent. -/
def pThr : Proc :=
  { state := ProcState.ZOMBIE, pid := 8, parent := some 0, pgdir := 777,
    sz := 4096, kstack := 43, chan := 0, killed := false, name := "thr",
    athread := true, tstack := 4096, tretval := 0, cow := false, tf := tf0 }

/-- A table with a reapable non-thread child. -/
def tW : List Proc := [pPar, pChild]

/-- A table with a reapable thread child. -/
def tT : List Proc := [pPar, pThr]

/-- A single task sleeping on channel 5. -/
def pSleeper : Proc :=
  { state := ProcState.SLEEPING, pid := 2, parent := some 0, pgdir := 200,
    sz := 4096, kstack := 12, chan := 5, killed := false, name := "slp",
    athread := false, tstack := 0, tretval := 0, cow := false, tf := tf0 }

/-- A table whose only slot is a sleeper on channel 5. -/
def tS : List Proc := [pSleeper]

/-- The table `tW` after `wait` has reaped the child in slot 1: slot 1 is
UNUSED with `pid == 0`. -/
def tWr : List Proc := [pPar, reapProc pChild]

/-- A caller named "main" about to clone. -/
def pMain : Proc :=
  { state := ProcState.RUNNING, pid := 3, parent := none, pgdir := 100,
    sz := 8192, kstack := 11, chan := 0, killed := false, name := "main",
    athread := false, tstack := 0, tretval := 0, cow := false, tf := tf0 }

/-- A freshly allocated EMBRYO child slot whose name field still holds the
stale string "old" from a previous occupant. -/
def pSlot : Proc :=
  { state := ProcState.EMBRYO, pid := 9, parent := none, pgdir := 0,
    sz := 0, kstack := 13, chan := 0, killed := false, name := "old",
    athread := false, tstack := 0, tretval := 0, cow := false, tf := tf0 }

/-- Caller at index 0, fresh child slot at index 1. -/
def tC8 : List Proc := [pMain, pSlot]

/-- A fully occupied table: no UNUSED slot, so `allocproc` fails. -/
def tFull : List Proc := [pMain, pSleeper]

/-- A table with a free slot at index 1. -/
def tFree : List Proc := [pMain, reapProc pChild]

/-- Concrete trap frame for the signal-delivery witness: user esp 4096. -/
def tfW : Trapframe := ⟨500, 4096, 1, 2, 3⟩

/-- Concrete user memory (all zero) for the signal-delivery witness. -/
def mW : Mem := fun _ => 0

/-- Concrete handler table for the signal-delivery witness. -/
def hndW : Nat → Nat := fun s => 1000 + s

/-- Concrete pre-switch siginfo value for the signal-delivery witness. -/
def siW : Siginfo := ⟨7, 8⟩

/-- Concrete `applyprot` oracle for the mprotect witness: only the page at
8192 rejects the new protection. -/
def apC9w : Int → Int := fun i => if i = 8192 then 1 else 0

/-! ## Theorems -/

/-- C4: the code violates the claim.  Evaluating the embedded `cowfork` at its
failing inputs: the UNUSED→EMBRYO transition performed by `allocproc` on
behalf of `cowfork` runs with the table lock NOT held, and on `cow_copyuvm`
failure the EMBRYO→UNUSED rollback — which is not one of the two exempt
transitions — also runs with the lock not held.  Only the terminal
EMBRYO→RUNNABLE write is locked. -/
theorem C4_code_behavior :
    Transition.mk ProcState.UNUSED ProcState.EMBRYO false ∈
      cowfork_transitions true true true ∧
    Transition.mk ProcState.EMBRYO ProcState.UNUSED false ∈
      cowfork_transitions true true false ∧
    Transition.mk ProcState.EMBRYO ProcState.RUNNABLE true ∈
      cowfork_transitions true true true := by
  decide

/-- C5: the code violates the claim at the boundary.  A fault at exactly the
kernel base is NOT rejected: `cow_on KERNBASE` invokes the VM copy routine
(and returns its result), because the source guard is `addr > KERNBASE`
rather than `addr >= KERNBASE`.  Strictly above the base the claim's −1
branch is taken, and strictly below the copy path behaves as claimed. -/
theorem C5_code_behavior :
    cow_on KERNBASE (fun _ => 0) = (0, [KERNBASE]) ∧
    cow_on (KERNBASE + 1) (fun _ => 0) = (-1, []) ∧
    cow_on 4096 (fun _ => 0) = (0, [4096]) := by
  decide

/-- Helper: `wakeup1` preserves the invariant that every SLEEPING slot has a
non-null wait channel. -/
theorem wakeup1_chanInv (c : Nat) (t : List Proc) (h : chanInv t = true) :
    chanInv (wakeup1 c t) = true := by
  rw [chanInv, wakeup1, List.all_map, List.all_eq_true]
  rw [chanInv, List.all_eq_true] at h
  intro p hp
  have hh := h p hp
  by_cases hc : p.state = ProcState.SLEEPING ∧ p.chan = c
  · simp [Function.comp, hc]
  · simpa [Function.comp, hc] using hh

/-- Helper: the scan of `kill` preserves the invariant that every SLEEPING
slot has a non-null wait channel. -/
theorem killGo_chanInv (pid : Nat) (t : List Proc) (h : chanInv t = true) :
    chanInv (killGo pid t).2 = true := by
  induction t with
  | nil => rfl
  | cons p rest ih =>
    rw [chanInv, List.all_cons, Bool.and_eq_true] at h
    obtain ⟨h1, h2⟩ := h
    by_cases hc : p.pid = pid
    · simp only [killGo, if_pos hc]
      rw [chanInv, List.all_cons, Bool.and_eq_true]
      refine ⟨?_, h2⟩
      by_cases hs : p.state = ProcState.SLEEPING
      · simp [hs]
      · simp [hs, h1]
    · simp only [killGo, if_neg hc]
      rw [chanInv, List.all_cons, Bool.and_eq_true]
      exact ⟨h1, ih h2⟩

/-- C3: counterexample to the claim as stated.  The table `tS` (one slot,
SLEEPING on channel 5) satisfies the claimed iff-invariant, but after
`wakeup1 5` the woken slot is RUNNABLE while still holding wait channel 5, so
the invariant is false: `wakeup1` (and `kill`) promote a sleeper without
clearing its `chan` field. -/
theorem C3_counterexample :
    chanIff tS = true ∧ chanIff (wakeup1 5 tS) = false := by decide

/-- C3 (amended): only the forward direction survives — a SLEEPING slot has a
non-null wait channel, and both `wakeup1` and `kill` preserve this; a slot
they promote to RUNNABLE retains its non-null channel until the task itself
clears it in `sleep` after being rescheduled. -/
theorem C3_amended (c pid : Nat) (t : List Proc) (h : chanInv t = true) :
    chanInv (wakeup1 c t) = true ∧ chanInv ((kill pid t).2) = true :=
  ⟨wakeup1_chanInv c t h, killGo_chanInv pid t h⟩

/-- C3 witness: the amended theorem applied to the concrete sleeper table. -/
theorem C3_amended_witness :
    chanInv (wakeup1 5 tS) = true ∧ chanInv ((kill 9 tS).2) = true :=
  C3_amended 5 9 tS (by decide)

/-- C1: counterexample to the claim as stated.  `wait` by slot 0 on the table
`tW` successfully reaps the non-thread ZOMBIE child in slot 1 (its pid 7 is
returned and pgdir 555 is passed to `freevm`), yet the reaped slot's
`page_directory` field still holds 555 — `wait` never clears the field, so it
is not null after a successful wait even for a non-thread child. -/
theorem C1_counterexample :
    waitReap 0 tW = some (7, [pPar, reapProc pChild], [555]) ∧
    (reapProc pChild).athread = false ∧
    (reapProc pChild).pgdir = 555 ∧
    (555 : Nat) ≠ 0 := by decide

/-- C1 (amended): after every successful `wait` — one whose scan finds a
ZOMBIE child at the first matching index `i` — the reaped slot has state
UNUSED, `pid == 0`, `parent == null` and `kernel_stack == null`; its
`page_directory` field is passed to `freevm` but retains its previous value
instead of being cleared. -/
theorem C1_amended (curIdx : Nat) (t : List Proc) (i : Nat)
    (hi : i < t.length)
    (hz : (t.getD i default).parent = some curIdx ∧
          (t.getD i default).state = ProcState.ZOMBIE)
    (hfirst : ∀ j, j < i →
      ¬((t.getD j default).parent = some curIdx ∧
        (t.getD j default).state = ProcState.ZOMBIE)) :
    waitReap curIdx t =
      some ((t.getD i default).pid,
            t.set i (reapProc (t.getD i default)),
            [(t.getD i default).pgdir]) ∧
    (reapProc (t.getD i default)).state = ProcState.UNUSED ∧
    (reapProc (t.getD i default)).pid = 0 ∧
    (reapProc (t.getD i default)).parent = none ∧
    (reapProc (t.getD i default)).kstack = 0 ∧
    (reapProc (t.getD i default)).pgdir = (t.getD i default).pgdir := by
  refine ⟨?_, rfl, rfl, rfl, rfl, rfl⟩
  induction t generalizing i with
  | nil => simp at hi
  | cons p rest ih =>
    cases i with
    | zero =>
      simp only [List.getD_cons_zero] at hz ⊢
      simp only [waitReap, if_pos hz]
      rfl
    | succ j =>
      have hnp := hfirst 0 (Nat.succ_pos j)
      simp only [List.getD_cons_zero] at hnp
      simp only [List.getD_cons_succ] at hz ⊢
      simp only [waitReap, if_neg hnp]
      have hi' : j < rest.length := by
        simp only [List.length_cons] at hi
        omega
      have hfirst' : ∀ j', j' < j →
          ¬((rest.getD j' default).parent = some curIdx ∧
            (rest.getD j' default).state = ProcState.ZOMBIE) := by
        intro j' hj'
        have hh := hfirst (j' + 1) (by omega)
        simpa using hh
      rw [ih j hi' hz hfirst']
      rfl

/-- C1 witness: the amended theorem applied to the concrete table `tW`,
whose first (and only) ZOMBIE child of slot 0 sits at index 1. -/
theorem C1_amended_witness :
    waitReap 0 tW =
      some ((tW.getD 1 default).pid,
            tW.set 1 (reapProc (tW.getD 1 default)),
            [(tW.getD 1 default).pgdir]) ∧
    (reapProc (tW.getD 1 default)).state = ProcState.UNUSED ∧
    (reapProc (tW.getD 1 default)).pid = 0 ∧
    (reapProc (tW.getD 1 default)).parent = none ∧
    (reapProc (tW.getD 1 default)).kstack = 0 ∧
    (reapProc (tW.getD 1 default)).pgdir = (tW.getD 1 default).pgdir :=
  C1_amended 0 tW 1 (by decide) (by decide) (by decide)

/-- C2: the code violates the claim.  Reaping the table `tT`, whose ZOMBIE
child in slot 1 is a thread (`athread = true`) sharing page directory 777
with its parent, `wait` nevertheless hands 777 to `freevm`: the source calls
`freevm(p->pgdir)` unconditionally, with no thread check, so a thread child's
shared page directory IS freed by `wait`. -/
theorem C2_code_behavior :
    (tT.getD 1 default).athread = true ∧
    waitReap 0 tT = some (8, [pPar, reapProc pThr], [777]) := by decide

/-- C10: `kill` matches slots purely by the `pid` field, never checking
occupancy.  In any table whose first slot with `pid == 0` (as a reaped slot
has) is an UNUSED slot at index `i`, `kill 0` returns 0 and sets
`killed = 1` on that UNUSED slot, which stays UNUSED. -/
theorem C10_kill_unused (t : List Proc) (i : Nat)
    (hi : i < t.length)
    (hpid : (t.getD i default).pid = 0)
    (hstate : (t.getD i default).state = ProcState.UNUSED)
    (hfirst : ∀ j, j < i → (t.getD j default).pid ≠ 0) :
    (kill 0 t).1 = 0 ∧
    ((kill 0 t).2.getD i default).killed = true ∧
    ((kill 0 t).2.getD i default).state = ProcState.UNUSED := by
  induction t generalizing i with
  | nil => simp at hi
  | cons p rest ih =>
    cases i with
    | zero =>
      simp only [List.getD_cons_zero] at hpid hstate
      simp only [kill, killGo, if_pos hpid, List.getD_cons_zero]
      simp [hstate]
    | succ j =>
      have hp0 : p.pid ≠ 0 := by
        have hh := hfirst 0 (Nat.succ_pos j)
        simpa using hh
      simp only [List.getD_cons_succ] at hpid hstate
      simp only [kill, killGo, if_neg hp0, List.getD_cons_succ]
      have hi' : j < rest.length := by
        simp only [List.length_cons] at hi
        omega
      have hfirst' : ∀ j', j' < j → (rest.getD j' default).pid ≠ 0 := by
        intro j' hj'
        have hh := hfirst (j' + 1) (by omega)
        simpa using hh
      exact ih j hi' hpid hstate hfirst'

/-- C10 witness: on the concrete post-reap table `tWr` (slot 1 reaped by
`wait`, so UNUSED with pid 0, and slot 0 occupied with pid 1), `kill 0`
returns 0 and marks the UNUSED slot killed. -/
theorem C10_kill_unused_witness :
    (kill 0 tWr).1 = 0 ∧
    ((kill 0 tWr).2.getD 1 default).killed = true ∧
    ((kill 0 tWr).2.getD 1 default).state = ProcState.UNUSED :=
  C10_kill_unused tWr 1 (by decide) (by decide) (by decide) (by decide)

/-- C7: the code violates the lock part of the claim.  On the table `tFull`
(no UNUSED slot) `clone` does return −1, but ptable.lock is still held at
that return — the failure path has no `release`.  On the table `tFree` the
success path returns a pid with the lock released, so the leak is specific to
the allocation-failure return. -/
theorem C7_code_behavior :
    (clone 0 0 0 0 (some 99) 5 tFull).ret = -1 ∧
    (clone 0 0 0 0 (some 99) 5 tFull).lockHeld = true ∧
    (clone 7 8 4096 0 (some 99) 5 tFree).lockHeld = false ∧
    (clone 7 8 4096 0 (some 99) 5 tFree).ret = 5 := by decide

/-- C8: the code violates the claim.  Cloning from the caller `pMain` (name
"main") into the fresh slot `pSlot` (stale name "old"), `thread_init`'s
`safestrcpy(proc->name, np->name, ...)` has source and destination swapped:
afterwards the CALLER's name is "old" (overwritten with the child slot's
stale name) and the child's name is still "old" — the child never receives
"main" and the caller does not keep it. -/
theorem C8_code_behavior :
    pMain.name = "main" ∧
    ((thread_init 0 1 777 tC8).getD 0 default).name = "old" ∧
    ((thread_init 0 1 777 tC8).getD 1 default).name = "old" := by decide

/-- Helper: reading a memory word back at the address just written. -/
theorem writeWord_same (m : Mem) (a v : Nat) : writeWord m a v a = v := by
  simp [writeWord]

/-- Helper: a store at a different address does not affect a read. -/
theorem writeWord_other (m : Mem) (a v x : Nat) (h : x ≠ a) :
    writeWord m a v x = m x := by
  simp [writeWord, h]

/-- C6: confirmed.  For any call to `signal_deliver` whose saved user stack
pointer `esp` satisfies `32 ≤ esp < 2^32` (so the eight stores stay below
`esp` without wrapping), the resulting user memory holds the saved eip at
`esp−4`, eax at `esp−8`, ecx at `esp−12`, edx at `esp−16`, the 8-byte
signal-info at `esp−24` (address word) and `esp−20` (type word), the signal
number at `esp−28` and the restorer address at `esp−32`; the trap frame's
esp becomes `esp−32` and its eip becomes `handlers[signum]`. -/
theorem C6_signal_deliver_layout (signum : Nat) (info0 : Siginfo)
    (rcr2v protv : Nat) (handlers : Nat → Nat) (restorer : Nat)
    (tf : Trapframe) (m : Mem)
    (h1 : 32 ≤ tf.esp) (h2 : tf.esp < 4294967296) :
    (signal_deliver signum info0 rcr2v protv handlers restorer tf m).2
        (tf.esp - 4) = tf.eip ∧
    (signal_deliver signum info0 rcr2v protv handlers restorer tf m).2
        (tf.esp - 8) = tf.eax ∧
    (signal_deliver signum info0 rcr2v protv handlers restorer tf m).2
        (tf.esp - 12) = tf.ecx ∧
    (signal_deliver signum info0 rcr2v protv handlers restorer tf m).2
        (tf.esp - 16) = tf.edx ∧
    (signal_deliver signum info0 rcr2v protv handlers restorer tf m).2
        (tf.esp - 24) =
      (if signum = SIGSEGV then rcr2v else info0.addr) ∧
    (signal_deliver signum info0 rcr2v protv handlers restorer tf m).2
        (tf.esp - 20) =
      (if signum = SIGSEGV then protv else info0.type) ∧
    (signal_deliver signum info0 rcr2v protv handlers restorer tf m).2
        (tf.esp - 28) = signum ∧
    (signal_deliver signum info0 rcr2v protv handlers restorer tf m).2
        (tf.esp - 32) = restorer ∧
    (signal_deliver signum info0 rcr2v protv handlers restorer tf m).1.esp =
      tf.esp - 32 ∧
    (signal_deliver signum info0 rcr2v protv handlers restorer tf m).1.eip =
      handlers signum := by
  have e4 : usub tf.esp 4 = tf.esp - 4 := by unfold usub; omega
  have e8 : usub tf.esp 8 = tf.esp - 8 := by unfold usub; omega
  have e12 : usub tf.esp 12 = tf.esp - 12 := by unfold usub; omega
  have e16 : usub tf.esp 16 = tf.esp - 16 := by unfold usub; omega
  have e20 : usub tf.esp 20 = tf.esp - 20 := by unfold usub; omega
  have e24 : usub tf.esp 24 = tf.esp - 24 := by unfold usub; omega
  have e28 : usub tf.esp 28 = tf.esp - 28 := by unfold usub; omega
  have e32 : usub tf.esp 32 = tf.esp - 32 := by unfold usub; omega
  refine ⟨?_, ?_, ?_, ?_, ?_, ?_, ?_, ?_, ?_, ?_⟩
  · show writeWord _ (usub tf.esp 32) _ _ = _
    rw [e4, e8, e12, e16, e20, e24, e28, e32,
        writeWord_other _ _ _ _ (by omega), writeWord_other _ _ _ _ (by omega),
        writeWord_other _ _ _ _ (by omega), writeWord_other _ _ _ _ (by omega),
        writeWord_other _ _ _ _ (by omega), writeWord_other _ _ _ _ (by omega),
        writeWord_other _ _ _ _ (by omega), writeWord_same]
  · show writeWord _ (usub tf.esp 32) _ _ = _
    rw [e4, e8, e12, e16, e20, e24, e28, e32,
        writeWord_other _ _ _ _ (by omega), writeWord_other _ _ _ _ (by omega),
        writeWord_other _ _ _ _ (by omega), writeWord_other _ _ _ _ (by omega),
        writeWord_other _ _ _ _ (by omega), writeWord_other _ _ _ _ (by omega),
        writeWord_same]
  · show writeWord _ (usub tf.esp 32) _ _ = _
    rw [e4, e8, e12, e16, e20, e24, e28, e32,
        writeWord_other _ _ _ _ (by omega), writeWord_other _ _ _ _ (by omega),
        writeWord_other _ _ _ _ (by omega), writeWord_other _ _ _ _ (by omega),
        writeWord_other _ _ _ _ (by omega), writeWord_same]
  · show writeWord _ (usub tf.esp 32) _ _ = _
    rw [e4, e8, e12, e16, e20, e24, e28, e32,
        writeWord_other _ _ _ _ (by omega), writeWord_other _ _ _ _ (by omega),
        writeWord_other _ _ _ _ (by omega), writeWord_other _ _ _ _ (by omega),
        writeWord_same]
  · show writeWord _ (usub tf.esp 32) _ _ = _
    rw [e4, e8, e12, e16, e20, e24, e28, e32,
        writeWord_other _ _ _ _ (by omega), writeWord_other _ _ _ _ (by omega),
        writeWord_other _ _ _ _ (by omega), writeWord_same]
    split_ifs <;> rfl
  · show writeWord _ (usub tf.esp 32) _ _ = _
    rw [e4, e8, e12, e16, e20, e24, e28, e32,
        writeWord_other _ _ _ _ (by omega), writeWord_other _ _ _ _ (by omega),
        writeWord_same]
    split_ifs <;> rfl
  · show writeWord _ (usub tf.esp 32) _ _ = _
    rw [e4, e8, e12, e16, e20, e24, e28, e32,
        writeWord_other _ _ _ _ (by omega), writeWord_same]
  · show writeWord _ (usub tf.esp 32) _ _ = _
    rw [e4, e8, e12, e16, e20, e24, e28, e32, writeWord_same]
  · show usub tf.esp 32 = _
    rw [e32]
  · rfl

/-- C6 witness: the layout theorem applied to a concrete delivery of signal 3
with user esp 4096, handlers `hndW` and restorer 99. -/
theorem C6_signal_deliver_layout_witness :
    (signal_deliver 3 siW 0 0 hndW 99 tfW mW).2 (tfW.esp - 4) = tfW.eip ∧
    (signal_deliver 3 siW 0 0 hndW 99 tfW mW).2 (tfW.esp - 8) = tfW.eax ∧
    (signal_deliver 3 siW 0 0 hndW 99 tfW mW).2 (tfW.esp - 12) = tfW.ecx ∧
    (signal_deliver 3 siW 0 0 hndW 99 tfW mW).2 (tfW.esp - 16) = tfW.edx ∧
    (signal_deliver 3 siW 0 0 hndW 99 tfW mW).2 (tfW.esp - 24) =
      (if 3 = SIGSEGV then 0 else siW.addr) ∧
    (signal_deliver 3 siW 0 0 hndW 99 tfW mW).2 (tfW.esp - 20) =
      (if 3 = SIGSEGV then 0 else siW.type) ∧
    (signal_deliver 3 siW 0 0 hndW 99 tfW mW).2 (tfW.esp - 28) = 3 ∧
    (signal_deliver 3 siW 0 0 hndW 99 tfW mW).2 (tfW.esp - 32) = 99 ∧
    (signal_deliver 3 siW 0 0 hndW 99 tfW mW).1.esp = tfW.esp - 32 ∧
    (signal_deliver 3 siW 0 0 hndW 99 tfW mW).1.eip = hndW 3 :=
  C6_signal_deliver_layout 3 siW 0 0 hndW 99 tfW mW (by decide) (by decide)

/-- Helper: the page loop returns −1 exactly when some visited page — one of
`i + 4096*k` with `i + 4096*k < stop` — is rejected by `applyprot`.
Fuel-bounded formulation for the induction. -/
theorem mprotectLoop_neg1_bounded (ap : Int → Int) :
    ∀ n : Nat, ∀ i stop : Int, (stop - i).toNat ≤ n →
      ((mprotectLoop ap i stop).1 = -1 ↔
        ∃ k : Nat, i + 4096 * k < stop ∧ ap (i + 4096 * k) ≠ 0) := by
  intro n
  induction n with
  | zero =>
    intro i stop hn
    have hge : ¬ i < stop := by omega
    rw [mprotectLoop, dif_neg hge]
    constructor
    · intro h0
      exfalso
      exact absurd h0 (by decide)
    · rintro ⟨k, hk, _⟩
      exfalso
      have hk0 : (0 : Int) ≤ (k : Int) := Int.natCast_nonneg k
      omega
  | succ n ih =>
    intro i stop hn
    by_cases h : i < stop
    · rw [mprotectLoop, dif_pos h]
      by_cases hb : ap i ≠ 0
      · rw [if_pos hb]
        constructor
        · intro _
          refine ⟨0, ?_, ?_⟩
          · simpa using h
          · simpa using hb
        · intro _
          rfl
      · rw [if_neg hb]
        push_neg at hb
        have ihh := ih (i + 4096) stop (by omega)
        constructor
        · intro h0
          obtain ⟨k, hk1, hk2⟩ := ihh.mp h0
          refine ⟨k + 1, ?_, ?_⟩
          · push_cast
            omega
          · have harg : i + 4096 * ((k : Nat) + 1 : Nat) = i + 4096 + 4096 * k := by
              push_cast
              ring
            rw [harg]
            exact hk2
        · rintro ⟨k, hk1, hk2⟩
          show (mprotectLoop ap (i + 4096) stop).1 = -1
          cases k with
          | zero =>
            exfalso
            apply hk2
            simpa using hb
          | succ j =>
            apply ihh.mpr
            refine ⟨j, ?_, ?_⟩
            · push_cast at hk1
              omega
            · have harg : i + 4096 + 4096 * (j : Int) = i + 4096 * ((j : Nat) + 1 : Nat) := by
                push_cast [Nat.cast_add]
                ring
              rw [harg]
              exact hk2
    · rw [mprotectLoop, dif_neg h]
      constructor
      · intro h0
        exfalso
        exact absurd h0 (by decide)
      · rintro ⟨k, hk, _⟩
        exfalso
        have hk0 : (0 : Int) ≤ (k : Int) := Int.natCast_nonneg k
        omega

/-- Helper: the page loop returns −1 iff some page in the stepped range is
rejected. -/
theorem mprotectLoop_neg1_iff (ap : Int → Int) (i stop : Int) :
    (mprotectLoop ap i stop).1 = -1 ↔
      ∃ k : Nat, i + 4096 * k < stop ∧ ap (i + 4096 * k) ≠ 0 :=
  mprotectLoop_neg1_bounded ap (stop - i).toNat i stop (le_refl _)

/-- C9: counterexample to the claim as stated.  `mprotect(a, 0, prot)` is
claimed to return 0 for every address, but at the non-page-aligned address 1
the code rejects the address before looking at the length and returns −1
(this also contradicts the claim's own iff, which demands −1 for every
unaligned address). -/
theorem C9_counterexample :
    mprotect 1 0 (fun _ => 0) = (-1, []) ∧ ((-1 : Int) ≠ 0) := by decide

/-- C9 (amended): an unaligned address yields −1 with no page touched, even
for `len = 0`; for a page-aligned address `mprotect(a, 0, prot)` touches no
page and returns 0; and `mprotect(a, len, prot)` returns −1 iff `a` is not
page-aligned or some visited page `a + 4096*k` in `[a, a+len)` cannot accept
the new protection. -/
theorem C9_amended (a len : Int) (ap : Int → Int) :
    (a % 4096 ≠ 0 → mprotect a len ap = (-1, [])) ∧
    (a % 4096 = 0 → mprotect a 0 ap = (0, [])) ∧
    ((mprotect a len ap).1 = -1 ↔
      (a % 4096 ≠ 0 ∨
        ∃ k : Nat, a + 4096 * k < a + len ∧ ap (a + 4096 * k) ≠ 0)) := by
  refine ⟨?_, ?_, ?_⟩
  · intro h
    rw [mprotect, if_pos h]
  · intro h
    rw [mprotect, if_neg (not_not_intro h), add_zero, mprotectLoop,
        dif_neg (lt_irrefl a)]
  · by_cases h : a % 4096 ≠ 0
    · rw [mprotect, if_pos h]
      simp [h]
    · rw [mprotect, if_neg h, mprotectLoop_neg1_iff]
      simp [h]

/-- C9 witness: the amended theorem applied at the aligned address 4096 with
length 0 (no-op returning 0) and at the unaligned address 1 (rejected with
−1 before any page is visited). -/
theorem C9_amended_witness :
    mprotect 4096 0 apC9w = (0, []) ∧ mprotect 1 4096 apC9w = (-1, []) :=
  ⟨(C9_amended 4096 8192 apC9w).2.1 (by decide),
   (C9_amended 1 4096 apC9w).1 (by decide)⟩
